import Mathlib

/-!
Shallow embedding of the Cloudflare worker in `src/index.ts`
(a Kinde-gated streaming proxy in front of the OpenAI chat-completions API),
together with theorems checking the natural-language specification against it.

Modelling conventions:
* JSON documents are the inductive `Json`; a field access `x?.k` that yields
  JavaScript `null`/`undefined` is modelled as `none` (the code only ever
  feeds such values to `??`, `?.`, `Array.isArray` and `=== <string>`, on
  which `null` and `undefined` behave identically).
* HTTP header maps are association lists with case-insensitive names,
  mirroring the Fetch `Headers` operations `get`/`set`/`delete`.
* The two network calls the worker can make are captured by passing in the
  responses the two endpoints would give (`ProviderResponse` for the Kinde
  entitlement endpoint, `UpstreamResponse` for the OpenAI endpoint) and by
  recording every outbound request the handler actually issues in a trace
  (`HandlerResult.calls`).
* Streaming response bodies are abstracted to the byte string the upstream
  produced; the worker pipes them through untouched.
-/

/-- JSON values, as produced by `res.json()`. -/
inductive Json where
  | null : Json
  | bool : Bool → Json
  | num : Int → Json
  | str : String → Json
  | arr : List Json → Json
  | obj : List (String × Json) → Json

/-- JavaScript `j?.k` followed by a nullish test: `some v` iff `j` is an
object with a field `k` whose value is neither `null` nor absent. -/
def jsField : Json → String → Option Json
  | Json.obj fs, k =>
    match fs.find? (fun p => p.1 == k) with
    | some (_, Json.null) => none
    | some (_, v) => some v
    | none => none
  | _, _ => none

/-- JavaScript `payload?.k1?.k2` (nullish when any step is nullish). -/
def jsField2 (payload : Json) (k1 k2 : String) : Option Json :=
  (jsField payload k1).bind (fun d => jsField d k2)

/-- JavaScript `f?.name === value` for a string `value`. -/
def strFieldEq (f : Json) (name value : String) : Bool :=
  match jsField f name with
  | some (Json.str s) => s == value
  | _ => false

/-- `Array.isArray(j) && j.some(pred)`. -/
def isArrayAny (j : Json) (pred : Json → Bool) : Bool :=
  match j with
  | Json.arr xs => xs.any pred
  | _ => false

/-- `src/index.ts` `hasEntitlement`: `features` is
`payload?.data?.entitlements ?? payload?.data?.features ?? []`, matched by
`key` or `feature_key`; then `payload?.data?.plans ?? []` matched by `key`. -/
def hasEntitlement (payload : Json) (key : String) : Bool :=
  let features := ((jsField2 payload "data" "entitlements").orElse
      (fun _ => jsField2 payload "data" "features")).getD (Json.arr [])
  if isArrayAny features
      (fun f => strFieldEq f "key" key || strFieldEq f "feature_key" key) then
    true
  else
    let plans := (jsField2 payload "data" "plans").getD (Json.arr [])
    if isArrayAny plans (fun p => strFieldEq p "key" key) then true
    else false

/-- The worker's environment bindings (`Env` in `src/index.ts`).
Optional bindings are `Option String`; a present-but-empty string is falsy
in the JavaScript truthiness tests the code performs on them. -/
structure Env where
  KINDE_DOMAIN : String
  OPENAI_API_KEY : String
  ALLOWED_ORIGIN : Option String
  DEV_PRO_TOKEN : Option String

/-- JavaScript `a || b` where `a` is a possibly-absent string. -/
def jsOrStr (a : Option String) (b : String) : String :=
  match a with
  | some s => if s == "" then b else s
  | none => b

/-- JavaScript truthiness of a possibly-absent string. -/
def truthyOpt : Option String → Bool
  | none => false
  | some s => s != ""

/-- The value of the `Access-Control-Allow-Origin` header:
`env.ALLOWED_ORIGIN || origin || "*"`. -/
def corsOrigin (origin : Option String) (env : Env) : String :=
  jsOrStr env.ALLOWED_ORIGIN (jsOrStr origin "*")

/-- `src/index.ts` `cors`: the three CORS headers. -/
def cors (origin : Option String) (env : Env) : List (String × String) :=
  [("Access-Control-Allow-Origin", corsOrigin origin env),
   ("Access-Control-Allow-Methods", "POST, OPTIONS"),
   ("Access-Control-Allow-Headers", "Authorization, Content-Type")]

/-- ASCII lowercasing of one character (header names are ASCII; Fetch
`Headers` compares names case-insensitively). -/
def lcChar (c : Char) : Char :=
  if 65 ≤ c.toNat ∧ c.toNat ≤ 90 then Char.ofNat (c.toNat + 32) else c

/-- ASCII lowercasing of a header name. -/
def lc (s : String) : String := String.mk (s.data.map lcChar)

/-- Whether the first character list starts with the second. -/
def startsWithChars : List Char → List Char → Bool
  | _, [] => true
  | [], _ :: _ => false
  | a :: s, b :: t => a == b && startsWithChars s t

/-- JavaScript `s.startsWith(p)`. -/
def jsStartsWith (s p : String) : Bool := startsWithChars s.data p.data

/-- Split a character list at every space, keeping empty segments. -/
def splitSpaceChars : List Char → List (List Char)
  | [] => [[]]
  | c :: rest =>
    if c == ' ' then [] :: splitSpaceChars rest
    else
      match splitSpaceChars rest with
      | [] => [[c]]
      | w :: ws => (c :: w) :: ws

/-- JavaScript `s.split(" ")`: split at every space character, empty
segments included. -/
def jsSplitSpace (s : String) : List String :=
  (splitSpaceChars s.data).map String.mk

/-- Fetch `Headers.get`: case-insensitive lookup. -/
def hget (hs : List (String × String)) (k : String) : Option String :=
  (hs.find? (fun p => (lc p.1) == (lc k))).map (fun p => p.2)

/-- Fetch `Headers.set`: replace any entry with the same
(case-insensitive) name. -/
def hset (hs : List (String × String)) (k v : String) :
    List (String × String) :=
  hs.filter (fun p => (lc p.1) != (lc k)) ++ [(k, v)]

/-- Fetch `Headers.delete`. -/
def hdel (hs : List (String × String)) (k : String) :
    List (String × String) :=
  hs.filter (fun p => (lc p.1) != (lc k))

/-- `Headers.set` for each entry of a list, in order
(the `Object.entries(baseCors).forEach` loop). -/
def setAll (hs : List (String × String)) (kvs : List (String × String)) :
    List (String × String) :=
  kvs.foldl (fun acc p => hset acc p.1 p.2) hs

/-- An inbound HTTP request, restricted to what the worker inspects. -/
structure Request where
  method : String
  headers : List (String × String)
  body : String

/-- A response body: absent, a JSON document the worker serialises, or the
upstream byte stream piped through. -/
inductive Body where
  | empty : Body
  | json : Json → Body
  | stream : String → Body

/-- An HTTP response produced by the worker. -/
structure Resp where
  status : Nat
  headers : List (String × String)
  body : Body

/-- What the Kinde entitlement endpoint would answer: its HTTP status and
the JSON parse of its body (`none` when the body is unparsable, which the
code's `.catch(() => ({}))` turns into an empty object). -/
structure ProviderResponse where
  status : Nat
  body : Option Json

/-- What the OpenAI completion endpoint would answer. -/
structure UpstreamResponse where
  status : Nat
  headers : List (String × String)
  body : String

/-- A record of one outbound request the worker issued. -/
structure OutboundCall where
  url : String
  method : String
  headers : List (String × String)
  body : String

/-- The worker's observable behaviour on one inbound request: the response
it returns and the outbound requests it issued, in order. -/
structure HandlerResult where
  response : Resp
  calls : List OutboundCall

/-- `Response.ok`: HTTP status in the 200-299 range. -/
def statusOk (status : Nat) : Bool := 200 ≤ status && status ≤ 299

/-- `src/index.ts` `handleOptions`. -/
def handleOptions (req : Request) (env : Env) : Resp :=
  let headers := cors (hget req.headers "Origin") env
  if truthyOpt (hget req.headers "Origin") &&
     truthyOpt (hget req.headers "Access-Control-Request-Method") &&
     truthyOpt (hget req.headers "Access-Control-Request-Headers") then
    { status := 200, headers := headers, body := Body.empty }
  else
    { status := 200, headers := ("Allow", "POST, OPTIONS") :: headers,
      body := Body.empty }

/-- The issuer URL: `KINDE_DOMAIN`, prefixed with `https://` when it does
not already start with `http`. -/
def issuer (env : Env) : String :=
  if jsStartsWith env.KINDE_DOMAIN "http" then env.KINDE_DOMAIN
  else "https://" ++ env.KINDE_DOMAIN

/-- The Kinde entitlement endpoint URL. -/
def entitlementsUrl (env : Env) : String :=
  issuer env ++ "/account_api/v1/entitlements"

/-- The outbound request `validateKindeAccess` issues (a `fetch` with only
an `Authorization` header; the default method is GET, the body empty). -/
def kindeCall (env : Env) (userAccessToken : String) : OutboundCall :=
  { url := entitlementsUrl env, method := "GET",
    headers := [("Authorization", "Bearer " ++ userAccessToken)],
    body := "" }

/-- The required capability identifier (`REQUIRED_FEATURE`). -/
def REQUIRED_FEATURE : String := "ai_preprocessing"

/-- Return shape of `validateKindeAccess`. -/
structure ValidationResult where
  success : Bool
  error : Option Resp

/-- `src/index.ts` `validateKindeAccess`, with the provider's answer
passed in.  `entJson` is the parsed body, an empty object on parse
failure. -/
def validateKindeAccess (userAccessToken : String) (env : Env)
    (entRes : ProviderResponse) : ValidationResult :=
  let entJson := entRes.body.getD (Json.obj [])
  if !(statusOk entRes.status) then
    { success := false,
      error := some
        { status := entRes.status,
          headers := cors none env,
          body := Body.json (Json.obj
            [("message", Json.str
                ("Error: Kinde Account API returned " ++
                  toString entRes.status)),
             ("details", entJson)]) } }
  else if !(hasEntitlement entJson REQUIRED_FEATURE) then
    { success := false,
      error := some
        { status := 403,
          headers := cors none env,
          body := Body.json (Json.obj
            [("success", Json.bool false),
             ("message", Json.str
                ("Error: Permission \x27" ++ REQUIRED_FEATURE ++
                  "\x27 not found."))]) } }
  else { success := true, error := none }

/-- `authHeader.split(" ")[1]` (the prefix `"Bearer "` guarantees the
split has a second component). -/
def extractToken (authHeader : String) : String :=
  (jsSplitSpace authHeader).getD 1 ""

/-- `env.DEV_PRO_TOKEN && userAccessToken === env.DEV_PRO_TOKEN`:
the bypass fires only when the binding is set to a non-empty string that
the token equals exactly. -/
def isBypass (env : Env) (userAccessToken : String) : Bool :=
  match env.DEV_PRO_TOKEN with
  | some d => d != "" && userAccessToken == d
  | none => false

/-- The outbound request the relay issues to the OpenAI endpoint. -/
def openaiCall (env : Env) (body : String) : OutboundCall :=
  { url := "https://api.openai.com/v1/chat/completions",
    method := "POST",
    headers := [("Authorization", "Bearer " ++ env.OPENAI_API_KEY),
                ("Content-Type", "application/json"),
                ("Accept", "text/event-stream")],
    body := body }

/-- The relay's response: the upstream headers with `Content-Type`,
`Cache-Control` rewritten, `Content-Encoding` removed and the CORS headers
overlaid; the upstream status and body pass through. -/
def relayResponse (req : Request) (env : Env) (up : UpstreamResponse) :
    Resp :=
  let h1 := hset up.headers "Content-Type" "text/event-stream; charset=utf-8"
  let h2 := hset h1 "Cache-Control" "no-store"
  let h3 := hdel h2 "Content-Encoding"
  let h4 := setAll h3 (cors (hget req.headers "Origin") env)
  { status := up.status, headers := h4, body := Body.stream up.body }

/-- The 405 response for a non-POST, non-OPTIONS method. -/
def methodNotAllowed (req : Request) (env : Env) : Resp :=
  { status := 405,
    headers := cors (hget req.headers "Origin") env,
    body := Body.json (Json.obj
      [("message", Json.str "Error: Expected POST request.")]) }

/-- The 401 response for a missing or malformed `Authorization` header. -/
def unauthorizedResp (req : Request) (env : Env) : Resp :=
  { status := 401,
    headers := cors (hget req.headers "Origin") env,
    body := Body.json (Json.obj
      [("message", Json.str
          "Error: Missing or invalid Authorization header.")]) }

/-- The exported `fetch` handler of `src/index.ts`.  `kinde` and `up` are
the answers the two endpoints would give if called; the trace records the
calls actually made.  (The `getD` in the denied branch mirrors the
non-null assertion `validation.error!`; it is unreachable because a failed
validation always carries an error response.) -/
def handleFetch (req : Request) (env : Env) (kinde : ProviderResponse)
    (up : UpstreamResponse) : HandlerResult :=
  if req.method == "OPTIONS" then
    { response := handleOptions req env, calls := [] }
  else if req.method != "POST" then
    { response := methodNotAllowed req env, calls := [] }
  else
    match hget req.headers "Authorization" with
    | none => { response := unauthorizedResp req env, calls := [] }
    | some authHeader =>
      if jsStartsWith authHeader "Bearer " then
        let userAccessToken := extractToken authHeader
        if isBypass env userAccessToken then
          { response := relayResponse req env up,
            calls := [openaiCall env req.body] }
        else
          let validation := validateKindeAccess userAccessToken env kinde
          if validation.success then
            { response := relayResponse req env up,
              calls := [kindeCall env userAccessToken,
                        openaiCall env req.body] }
          else
            { response := validation.error.getD (relayResponse req env up),
              calls := [kindeCall env userAccessToken] }
      else { response := unauthorizedResp req env, calls := [] }

/-- Whether a request reaches the Upstream Relay step: a POST with a
`Bearer ` authorization header whose token either matches the bypass or
passes the Kinde entitlement validation. -/
def reachesRelay (req : Request) (env : Env) (kinde : ProviderResponse) :
    Bool :=
  if req.method == "OPTIONS" then false
  else if req.method != "POST" then false
  else
    match hget req.headers "Authorization" with
    | none => false
    | some authHeader =>
      if jsStartsWith authHeader "Bearer " then
        let userAccessToken := extractToken authHeader
        isBypass env userAccessToken ||
          (validateKindeAccess userAccessToken env kinde).success
      else false

/-- Whether the request is denied inside `validateKindeAccess` (the two
response paths built with `cors(null, env)`). -/
def deniedByValidation (req : Request) (env : Env)
    (kinde : ProviderResponse) : Bool :=
  if req.method == "OPTIONS" then false
  else if req.method != "POST" then false
  else
    match hget req.headers "Authorization" with
    | none => false
    | some authHeader =>
      if jsStartsWith authHeader "Bearer " then
        let userAccessToken := extractToken authHeader
        !(isBypass env userAccessToken) &&
          !((validateKindeAccess userAccessToken env kinde).success)
      else false

/-- Substring test (used to state that an error body names the missing
capability). -/
def strContains (s pat : String) : Bool :=
  (List.range (s.data.length + 1)).any
    (fun i => startsWithChars (s.data.drop i) pat.data)

/-! ### Concrete fixtures used by witnesses and counterexamples -/

/-- A deployment with no optional bindings set. -/
def envPlain : Env :=
  { KINDE_DOMAIN := "biz.kinde.com", OPENAI_API_KEY := "sk-secret-1",
    ALLOWED_ORIGIN := none, DEV_PRO_TOKEN := none }

/-- The same deployment with a different upstream secret. -/
def envPlain2 : Env :=
  { KINDE_DOMAIN := "biz.kinde.com", OPENAI_API_KEY := "sk-secret-2",
    ALLOWED_ORIGIN := none, DEV_PRO_TOKEN := none }

/-- A deployment with a development bypass token configured. -/
def envDev : Env :=
  { KINDE_DOMAIN := "biz.kinde.com", OPENAI_API_KEY := "sk-secret-1",
    ALLOWED_ORIGIN := none, DEV_PRO_TOKEN := some "devtok" }

/-- A deployment whose bypass binding is set to the empty string. -/
def envEmptyDev : Env :=
  { KINDE_DOMAIN := "biz.kinde.com", OPENAI_API_KEY := "sk-secret-1",
    ALLOWED_ORIGIN := none, DEV_PRO_TOKEN := some "" }

/-- A POST request carrying a bearer token. -/
def reqBearer : Request :=
  { method := "POST", headers := [("Authorization", "Bearer tok")],
    body := "payload-bytes" }

/-- A POST request presenting the bypass token of `envDev`. -/
def reqDev : Request :=
  { method := "POST", headers := [("Authorization", "Bearer devtok")],
    body := "payload-bytes" }

/-- A POST request carrying a bearer token and an `Origin` header. -/
def reqOrigin : Request :=
  { method := "POST",
    headers := [("Authorization", "Bearer tok"),
                ("Origin", "https://example.com")],
    body := "payload-bytes" }

/-- A GET request (method neither POST nor OPTIONS). -/
def reqGet : Request :=
  { method := "GET", headers := [("Origin", "https://example.com")],
    body := "" }

/-- A POST request whose authorization header is exactly `Bearer `
(empty token). -/
def reqEmptyTok : Request :=
  { method := "POST", headers := [("Authorization", "Bearer ")],
    body := "payload-bytes" }

/-- An entitlement payload whose `data.entitlements` list is present but
matches nothing, while `data.features` contains the capability. -/
def payloadEntFeat : Json :=
  Json.obj [("data", Json.obj
    [("entitlements", Json.arr [Json.obj [("key", Json.str "other")]]),
     ("features", Json.arr
       [Json.obj [("key", Json.str "ai_preprocessing")]])])]

/-- `data.entitlements = [ obj with feature_key ai_preprocessing ]`. -/
def payloadFeatureKey : Json :=
  Json.obj [("data", Json.obj
    [("entitlements", Json.arr
       [Json.obj [("feature_key", Json.str "ai_preprocessing")]])])]

/-- `data.entitlements = [ obj with key other ]`, nothing else. -/
def payloadNoMatch : Json :=
  Json.obj [("data", Json.obj
    [("entitlements", Json.arr [Json.obj [("key", Json.str "other")]])])]

/-- A successful provider response granting the capability. -/
def kindeGrant : ProviderResponse := { status := 200, body := some payloadFeatureKey }

/-- A successful provider response with entitlements unmatched but a
matching features list. -/
def kindeEntFeat : ProviderResponse := { status := 200, body := some payloadEntFeat }

/-- A successful provider response without the capability. -/
def kindeNoMatch : ProviderResponse := { status := 200, body := some payloadNoMatch }

/-- A failing provider response with an unparsable body. -/
def kindeDown : ProviderResponse := { status := 503, body := none }

/-- An upstream response carrying headers the relay must rewrite and one
it must preserve. -/
def upSample : UpstreamResponse :=
  { status := 200,
    headers := [("Content-Encoding", "gzip"),
                ("Content-Type", "application/octet-stream"),
                ("X-Request-Id", "req-1")],
    body := "data: chunk-1 data: chunk-2" }

/-! ### Lemmas about the header-map operations -/

theorem find?_filter_same (hs : List (String × String)) (k k' : String)
    (h : (lc k') = (lc k)) :
    (hs.filter (fun p => (lc p.1) != (lc k))).find?
      (fun p => (lc p.1) == (lc k')) = none := by
  rw [List.find?_eq_none]
  intro p hp
  rcases List.mem_filter.mp hp with ⟨_, hq⟩
  have hne : (lc p.1) ≠ (lc k) := bne_iff_ne.mp hq
  simp only [beq_iff_eq, h]
  exact hne

theorem find?_filter_other (hs : List (String × String)) (k k' : String)
    (h : ¬ (lc k') = (lc k)) :
    (hs.filter (fun p => (lc p.1) != (lc k))).find?
      (fun p => (lc p.1) == (lc k')) =
    hs.find? (fun p => (lc p.1) == (lc k')) := by
  induction hs with
  | nil => rfl
  | cons a t ih =>
    by_cases hq : (lc a.1) = (lc k)
    · have hpa : ((lc a.1) == (lc k')) = false := by
        refine beq_eq_false_iff_ne.mpr ?_
        rw [hq]
        exact fun hc => h hc.symm
      rw [List.filter_cons, if_neg (by simp [hq]), List.find?_cons, hpa]
      exact ih
    · rw [List.filter_cons, if_pos (by simp [hq]), List.find?_cons,
        List.find?_cons]
      cases hpa : ((lc a.1) == (lc k')) with
      | true => rfl
      | false => exact ih

theorem hget_hset_same (hs : List (String × String)) (k v k' : String)
    (h : (lc k') = (lc k)) : hget (hset hs k v) k' = some v := by
  unfold hget hset
  rw [List.find?_append, find?_filter_same hs k k' h]
  simp [List.find?_cons, h]

theorem hget_hset_other (hs : List (String × String)) (k v k' : String)
    (h : ¬ (lc k') = (lc k)) : hget (hset hs k v) k' = hget hs k' := by
  unfold hget hset
  rw [List.find?_append, find?_filter_other hs k k' h]
  have hpa : ((lc k) == (lc k')) = false := by
    simp only [beq_eq_false_iff_ne, ne_eq]
    intro hc
    exact h hc.symm
  cases hfind : hs.find? (fun p => (lc p.1) == (lc k')) with
  | none => simp [List.find?_cons, hpa]
  | some p => simp

theorem hget_hdel_same (hs : List (String × String)) (k k' : String)
    (h : (lc k') = (lc k)) : hget (hdel hs k) k' = none := by
  unfold hget hdel
  rw [find?_filter_same hs k k' h]
  rfl

theorem hget_hdel_other (hs : List (String × String)) (k k' : String)
    (h : ¬ (lc k') = (lc k)) : hget (hdel hs k) k' = hget hs k' := by
  unfold hget hdel
  rw [find?_filter_other hs k k' h]

theorem mem_hset (hs : List (String × String)) (k v : String)
    (p : String × String) (hp : p ∈ hs) (h : ¬ (lc p.1) = (lc k)) :
    p ∈ hset hs k v := by
  unfold hset
  refine List.mem_append.mpr (Or.inl ?_)
  exact List.mem_filter.mpr ⟨hp, by simpa using h⟩

theorem mem_hdel (hs : List (String × String)) (k : String)
    (p : String × String) (hp : p ∈ hs) (h : ¬ (lc p.1) = (lc k)) :
    p ∈ hdel hs k := by
  unfold hdel
  exact List.mem_filter.mpr ⟨hp, by simpa using h⟩

/-- The relay's header pipeline, written as the explicit chain of
`set`/`delete` operations the code performs. -/
theorem relayResponse_headers_eq (req : Request) (env : Env)
    (up : UpstreamResponse) :
    (relayResponse req env up).headers =
      hset (hset (hset
        (hdel
          (hset (hset up.headers
            "Content-Type" "text/event-stream; charset=utf-8")
            "Cache-Control" "no-store")
          "Content-Encoding")
        "Access-Control-Allow-Origin" (corsOrigin (hget req.headers "Origin") env))
        "Access-Control-Allow-Methods" "POST, OPTIONS")
        "Access-Control-Allow-Headers" "Authorization, Content-Type" := rfl

/-- C7: for every upstream response, the relay response carries no
`Content-Encoding` header, always carries
`Content-Type: text/event-stream; charset=utf-8` and
`Cache-Control: no-store`, propagates the upstream status unchanged, and
preserves every upstream header whose (case-insensitive) name is not one of
the rewritten ones (`Content-Type`, `Cache-Control`, `Content-Encoding`)
nor one of the overlaid CORS headers. -/
theorem C7_relay_header_rewrite (req : Request) (env : Env)
    (up : UpstreamResponse) :
    hget (relayResponse req env up).headers "Content-Encoding" = none ∧
    hget (relayResponse req env up).headers "Content-Type" =
      some "text/event-stream; charset=utf-8" ∧
    hget (relayResponse req env up).headers "Cache-Control" =
      some "no-store" ∧
    (relayResponse req env up).status = up.status ∧
    (∀ p : String × String, p ∈ up.headers →
      lc p.1 ∉ (["content-type", "cache-control", "content-encoding",
        "access-control-allow-origin", "access-control-allow-methods",
        "access-control-allow-headers"] : List String) →
      p ∈ (relayResponse req env up).headers) := by
  refine ⟨?_, ?_, ?_, rfl, ?_⟩
  · rw [relayResponse_headers_eq,
      hget_hset_other _ _ _ _ (by decide),
      hget_hset_other _ _ _ _ (by decide),
      hget_hset_other _ _ _ _ (by decide),
      hget_hdel_same _ _ _ (by decide)]
  · rw [relayResponse_headers_eq,
      hget_hset_other _ _ _ _ (by decide),
      hget_hset_other _ _ _ _ (by decide),
      hget_hset_other _ _ _ _ (by decide),
      hget_hdel_other _ _ _ (by decide),
      hget_hset_other _ _ _ _ (by decide),
      hget_hset_same _ _ _ _ (by decide)]
  · rw [relayResponse_headers_eq,
      hget_hset_other _ _ _ _ (by decide),
      hget_hset_other _ _ _ _ (by decide),
      hget_hset_other _ _ _ _ (by decide),
      hget_hdel_other _ _ _ (by decide),
      hget_hset_same _ _ _ _ (by decide)]
  · intro p hp hnot
    simp only [List.mem_cons, List.not_mem_nil, or_false, not_or] at hnot
    obtain ⟨h1, h2, h3, h4, h5, h6⟩ := hnot
    rw [relayResponse_headers_eq]
    refine mem_hset _ _ _ _ (mem_hset _ _ _ _ (mem_hset _ _ _ _
      (mem_hdel _ _ _ (mem_hset _ _ _ _ (mem_hset _ _ _ _ hp
        ?_) ?_) ?_) ?_) ?_) ?_
    all_goals intro hc
    · exact h1 (by rw [hc]; decide)
    · exact h2 (by rw [hc]; decide)
    · exact h3 (by rw [hc]; decide)
    · exact h4 (by rw [hc]; decide)
    · exact h5 (by rw [hc]; decide)
    · exact h6 (by rw [hc]; decide)

/-- Witness for C7 at a concrete upstream response: the gzip
`Content-Encoding` disappears and the unrelated `X-Request-Id` header
survives. -/
theorem C7_relay_header_rewrite_witness :
    hget (relayResponse reqBearer envPlain upSample).headers
        "Content-Encoding" = none ∧
    hget (relayResponse reqBearer envPlain upSample).headers
        "Content-Type" = some "text/event-stream; charset=utf-8" ∧
    ("X-Request-Id", "req-1") ∈
      (relayResponse reqBearer envPlain upSample).headers := by
  refine ⟨(C7_relay_header_rewrite reqBearer envPlain upSample).1,
    (C7_relay_header_rewrite reqBearer envPlain upSample).2.1, ?_⟩
  exact (C7_relay_header_rewrite reqBearer envPlain upSample).2.2.2.2
    ("X-Request-Id", "req-1") (by decide) (by decide)

/-- C1 counterexample: with `data.entitlements` present but unmatched and
`data.features` containing an object whose `key` is `ai_preprocessing`,
the evaluation does NOT authorize (the nullish-coalescing chain never
consults `features` once `entitlements` is present): the gateway answers
403 where the claim demands Authorized. -/
theorem C1_counterexample :
    hasEntitlement payloadEntFeat "ai_preprocessing" = false ∧
    (handleFetch reqBearer envPlain kindeEntFeat upSample).response.status
      = 403 := by
  exact ⟨rfl, rfl⟩

/-- C1 (amended): the entitlement evaluation takes `data.entitlements`
when that list is present (non-nullish) and only otherwise falls back to
`data.features`; with `data.entitlements` present the outcome is a match
in that list (by `key` or `feature_key`) or else in `data.plans` (by
`key`) — the `features` list is never consulted. -/
theorem C1_amended_entitlements_shadow_features (payload : Json)
    (key : String) (e : Json)
    (he : jsField2 payload "data" "entitlements" = some e) :
    hasEntitlement payload key =
      (isArrayAny e (fun f =>
          strFieldEq f "key" key || strFieldEq f "feature_key" key) ||
       isArrayAny ((jsField2 payload "data" "plans").getD (Json.arr []))
         (fun p => strFieldEq p "key" key)) := by
  unfold hasEntitlement
  rw [he]
  cases h1 : isArrayAny e (fun f =>
      strFieldEq f "key" key || strFieldEq f "feature_key" key) with
  | true => simp [Option.orElse, h1]
  | false =>
    cases h2 : isArrayAny ((jsField2 payload "data" "plans").getD
        (Json.arr [])) (fun p => strFieldEq p "key" key) with
    | true => simp [Option.orElse, h1, h2]
    | false => simp [Option.orElse, h1, h2]

/-- Witness for the amended C1 at a concrete payload with
`data.entitlements` present. -/
theorem C1_amended_witness :
    jsField2 payloadEntFeat "data" "entitlements" =
      some (Json.arr [Json.obj [("key", Json.str "other")]]) ∧
    hasEntitlement payloadEntFeat "ai_preprocessing" =
      (isArrayAny (Json.arr [Json.obj [("key", Json.str "other")]])
          (fun f => strFieldEq f "key" "ai_preprocessing" ||
            strFieldEq f "feature_key" "ai_preprocessing") ||
       isArrayAny ((jsField2 payloadEntFeat "data" "plans").getD
          (Json.arr []))
         (fun p => strFieldEq p "key" "ai_preprocessing")) := by
  refine ⟨rfl, ?_⟩
  exact C1_amended_entitlements_shadow_features payloadEntFeat
    "ai_preprocessing" (Json.arr [Json.obj [("key", Json.str "other")]]) rfl

/-- C6: a provider payload with
`data.entitlements = [ feature_key ai_preprocessing ]` authorizes (the
handler answers with the relay response); with
`data.entitlements = [ key other ]` and no features/plans match the
handler answers 403 with a JSON body whose message names the literal
capability `ai_preprocessing`. -/
theorem C6_entitlement_scenarios :
    (handleFetch reqBearer envPlain kindeGrant upSample).response =
      relayResponse reqBearer envPlain upSample ∧
    (handleFetch reqBearer envPlain kindeNoMatch upSample).response.status
      = 403 ∧
    (handleFetch reqBearer envPlain kindeNoMatch upSample).response.body =
      Body.json (Json.obj
        [("success", Json.bool false),
         ("message", Json.str
            "Error: Permission \x27ai_preprocessing\x27 not found.")]) ∧
    strContains "Error: Permission \x27ai_preprocessing\x27 not found."
      "ai_preprocessing" = true := by
  exact ⟨rfl, rfl, rfl, rfl⟩

/-- The CORS headers do not depend on the upstream secret. -/
theorem cors_key_indep (o : Option String) (e1 e2 : Env)
    (ha : e1.ALLOWED_ORIGIN = e2.ALLOWED_ORIGIN) : cors o e1 = cors o e2 := by
  simp [cors, corsOrigin, ha]

/-- The validation outcome does not depend on the upstream secret. -/
theorem validateKindeAccess_key_indep (tok : String) (e1 e2 : Env)
    (kinde : ProviderResponse)
    (ha : e1.ALLOWED_ORIGIN = e2.ALLOWED_ORIGIN) :
    validateKindeAccess tok e1 kinde = validateKindeAccess tok e2 kinde := by
  unfold validateKindeAccess
  rw [cors_key_indep none e1 e2 ha]

/-- The handler's response (though not its outbound-call trace) is the
same for two deployments that agree on everything but the upstream
secret. -/
theorem handleFetch_response_key_indep (req : Request) (e1 e2 : Env)
    (kinde : ProviderResponse) (up : UpstreamResponse)
    (ha : e1.ALLOWED_ORIGIN = e2.ALLOWED_ORIGIN)
    (hd : e1.DEV_PRO_TOKEN = e2.DEV_PRO_TOKEN) :
    (handleFetch req e1 kinde up).response =
      (handleFetch req e2 kinde up).response := by
  have hco : ∀ o, cors o e1 = cors o e2 := fun o => cors_key_indep o e1 e2 ha
  have hrel : relayResponse req e1 up = relayResponse req e2 up := by
    unfold relayResponse setAll
    rw [hco]
  have hopt : handleOptions req e1 = handleOptions req e2 := by
    unfold handleOptions
    rw [hco]
  have hmna : methodNotAllowed req e1 = methodNotAllowed req e2 := by
    unfold methodNotAllowed
    rw [hco]
  have hun : unauthorizedResp req e1 = unauthorizedResp req e2 := by
    unfold unauthorizedResp
    rw [hco]
  have hval : ∀ t, validateKindeAccess t e1 kinde =
      validateKindeAccess t e2 kinde :=
    fun t => validateKindeAccess_key_indep t e1 e2 kinde ha
  have hby : ∀ t, isBypass e1 t = isBypass e2 t := by
    intro t
    unfold isBypass
    rw [hd]
  unfold handleFetch
  by_cases h1 : req.method == "OPTIONS"
  · simp [h1, hopt]
  · by_cases h2 : req.method != "POST"
    · simp [h1, h2, hmna]
    · cases hga : hget req.headers "Authorization" with
      | none => simp [h1, h2, hga, hun]
      | some authHeader =>
        by_cases h3 : jsStartsWith authHeader "Bearer "
        · by_cases h4 : isBypass e2 (extractToken authHeader)
          · simp [h1, h2, hga, h3, hby, h4, hrel]
          · by_cases h5 : (validateKindeAccess (extractToken authHeader)
                e2 kinde).success
            · simp [h1, h2, hga, h3, hby, h4, hval, h5, hrel]
            · simp [h1, h2, hga, h3, hby, h4, hval, h5, hrel]
        · simp [h1, h2, hga, h3, hun]

/-- C3: the gateway-originated responses (preflight, 405, 401, 403 and
provider-error) are identical in status, headers and body for every pair
of values of the secret `OPENAI_API_KEY`: the secret never influences any
response the gateway itself originates. -/
theorem C3_secret_noninterference (req : Request) (e1 e2 : Env)
    (kinde : ProviderResponse) (up : UpstreamResponse)
    (hk : e1.KINDE_DOMAIN = e2.KINDE_DOMAIN)
    (ha : e1.ALLOWED_ORIGIN = e2.ALLOWED_ORIGIN)
    (hd : e1.DEV_PRO_TOKEN = e2.DEV_PRO_TOKEN)
    (hgw : reachesRelay req e1 kinde = false) :
    (handleFetch req e1 kinde up).response =
      (handleFetch req e2 kinde up).response :=
  handleFetch_response_key_indep req e1 e2 kinde up ha hd

/-- Witness for C3 at a concrete non-relay request (a GET, answered 405)
and two deployments differing only in the secret. -/
theorem C3_secret_noninterference_witness :
    reachesRelay reqGet envPlain kindeNoMatch = false ∧
    envPlain.OPENAI_API_KEY ≠ envPlain2.OPENAI_API_KEY ∧
    (handleFetch reqGet envPlain kindeNoMatch upSample).response =
      (handleFetch reqGet envPlain2 kindeNoMatch upSample).response :=
  ⟨rfl, by decide,
   C3_secret_noninterference reqGet envPlain envPlain2 kindeNoMatch
     upSample rfl rfl rfl rfl⟩

/-- C2: whenever a request reaches the Upstream Relay step, the trace
contains exactly one POST request, addressed to the completion API,
carrying the caller's body byte-for-byte and the configured secret (not
the caller's token) as bearer credential. -/
theorem C2_relay_single_post_with_secret (req : Request) (env : Env)
    (kinde : ProviderResponse) (up : UpstreamResponse)
    (h : reachesRelay req env kinde = true) :
    (handleFetch req env kinde up).calls.filter
        (fun c => c.method == "POST") = [openaiCall env req.body] ∧
    (openaiCall env req.body).url =
      "https://api.openai.com/v1/chat/completions" ∧
    (openaiCall env req.body).body = req.body ∧
    (openaiCall env req.body).headers =
      [("Authorization", "Bearer " ++ env.OPENAI_API_KEY),
       ("Content-Type", "application/json"),
       ("Accept", "text/event-stream")] ∧
    hget (openaiCall env req.body).headers "Authorization" =
      some ("Bearer " ++ env.OPENAI_API_KEY) := by
  refine ⟨?_, rfl, rfl, rfl, rfl⟩
  unfold reachesRelay at h
  unfold handleFetch
  by_cases h1 : req.method == "OPTIONS"
  · simp [h1] at h
  · by_cases h2 : req.method != "POST"
    · simp [h1, h2] at h
    · cases hga : hget req.headers "Authorization" with
      | none => simp [h1, h2, hga] at h
      | some authHeader =>
        by_cases h3 : jsStartsWith authHeader "Bearer "
        · simp only [h1, h2, hga, h3] at h
          by_cases h4 : isBypass env (extractToken authHeader)
          · simp [h1, h2, hga, h3, h4, kindeCall, openaiCall]
          · have h5 : (validateKindeAccess (extractToken authHeader)
                env kinde).success = true := by
              simp [h4] at h
              simpa using h
            simp [h1, h2, hga, h3, h4, h5, kindeCall, openaiCall]
        · simp [h1, h2, hga, h3] at h

/-- Witness for C2 at a concrete authorized request (the bypass token). -/
theorem C2_relay_single_post_with_secret_witness :
    reachesRelay reqDev envDev kindeNoMatch = true ∧
    (handleFetch reqDev envDev kindeNoMatch upSample).calls.filter
        (fun c => c.method == "POST") =
      [openaiCall envDev reqDev.body] ∧
    hget (openaiCall envDev reqDev.body).headers "Authorization" =
      some ("Bearer " ++ envDev.OPENAI_API_KEY) :=
  ⟨rfl,
   (C2_relay_single_post_with_secret reqDev envDev kindeNoMatch upSample
     rfl).1,
   (C2_relay_single_post_with_secret reqDev envDev kindeNoMatch upSample
     rfl).2.2.2.2⟩

/-- C4: when a bypass token is configured (non-empty) and the extracted
token equals it exactly, the only outbound request is the completion-API
call — the identity provider is never contacted — and the handler answers
with the relay response. -/
theorem C4_bypass_skips_provider (req : Request) (env : Env)
    (kinde : ProviderResponse) (up : UpstreamResponse) (a d : String)
    (hm : req.method = "POST")
    (hga : hget req.headers "Authorization" = some a)
    (hb : jsStartsWith a "Bearer " = true)
    (hd : env.DEV_PRO_TOKEN = some d)
    (hne : (d == "") = false)
    (ht : extractToken a = d) :
    (handleFetch req env kinde up).calls = [openaiCall env req.body] ∧
    (openaiCall env req.body).url =
      "https://api.openai.com/v1/chat/completions" ∧
    (handleFetch req env kinde up).response = relayResponse req env up := by
  have hby : isBypass env (extractToken a) = true := by
    unfold isBypass
    rw [hd, ht]
    simp [bne, hne]
  have h1 : (req.method == "OPTIONS") = false := by
    rw [hm]; rfl
  have h2 : (req.method != "POST") = false := by
    rw [hm]; rfl
  unfold handleFetch
  refine ⟨?_, rfl, ?_⟩ <;> simp [h1, h2, hga, hb, hby]

/-- Witness for C4 at the concrete bypass deployment. -/
theorem C4_bypass_skips_provider_witness :
    envDev.DEV_PRO_TOKEN = some "devtok" ∧
    (handleFetch reqDev envDev kindeNoMatch upSample).calls =
      [openaiCall envDev reqDev.body] ∧
    (handleFetch reqDev envDev kindeNoMatch upSample).response =
      relayResponse reqDev envDev upSample :=
  ⟨rfl,
   (C4_bypass_skips_provider reqDev envDev kindeNoMatch upSample
     "Bearer devtok" "devtok" rfl rfl rfl rfl rfl rfl).1,
   (C4_bypass_skips_provider reqDev envDev kindeNoMatch upSample
     "Bearer devtok" "devtok" rfl rfl rfl rfl rfl rfl).2.2⟩

/-- C5: a non-successful provider status is mirrored: the gateway's
response carries the provider's status, and its JSON body's `details`
field is the provider's parsed body, or an empty object when the body was
unparsable. -/
theorem C5_provider_error_mirrored (req : Request) (env : Env)
    (kinde : ProviderResponse) (up : UpstreamResponse) (a : String)
    (hm : req.method = "POST")
    (hga : hget req.headers "Authorization" = some a)
    (hb : jsStartsWith a "Bearer " = true)
    (hbp : isBypass env (extractToken a) = false)
    (hko : statusOk kinde.status = false) :
    (handleFetch req env kinde up).response.status = kinde.status ∧
    (handleFetch req env kinde up).response.body = Body.json (Json.obj
      [("message", Json.str
          ("Error: Kinde Account API returned " ++ toString kinde.status)),
       ("details", kinde.body.getD (Json.obj []))]) := by
  have h1 : (req.method == "OPTIONS") = false := by
    rw [hm]; rfl
  have h2 : (req.method != "POST") = false := by
    rw [hm]; rfl
  unfold handleFetch validateKindeAccess
  simp [h1, h2, hga, hb, hbp, hko]

/-- Witness for C5 at a concrete 503 provider outage with an unparsable
body. -/
theorem C5_provider_error_mirrored_witness :
    statusOk kindeDown.status = false ∧
    (handleFetch reqBearer envPlain kindeDown upSample).response.status
      = 503 ∧
    (handleFetch reqBearer envPlain kindeDown upSample).response.body =
      Body.json (Json.obj
        [("message", Json.str
            ("Error: Kinde Account API returned " ++ toString (503 : Nat))),
         ("details", Json.obj [])]) :=
  ⟨rfl,
   (C5_provider_error_mirrored reqBearer envPlain kindeDown upSample
     "Bearer tok" rfl rfl rfl rfl rfl).1,
   (C5_provider_error_mirrored reqBearer envPlain kindeDown upSample
     "Bearer tok" rfl rfl rfl rfl rfl).2⟩

/-- C8 counterexample: a GET request is answered 405, but with no `Allow`
header — the code attaches only the CORS headers, while the claim demands
`Allow: POST, OPTIONS`. -/
theorem C8_counterexample :
    (handleFetch reqGet envPlain kindeNoMatch upSample).response.status
      = 405 ∧
    hget (handleFetch reqGet envPlain kindeNoMatch upSample).response.headers "Allow" = none := by
  exact ⟨rfl, rfl⟩

/-- C8 (amended): a request whose method is neither POST nor OPTIONS is
answered 405 with a JSON body carrying a `message` field and the CORS
headers; no `Allow` header is attached. -/
theorem C8_amended_no_allow (req : Request) (env : Env)
    (kinde : ProviderResponse) (up : UpstreamResponse)
    (h1 : (req.method == "OPTIONS") = false)
    (h2 : (req.method == "POST") = false) :
    (handleFetch req env kinde up).response.status = 405 ∧
    (handleFetch req env kinde up).response.body = Body.json (Json.obj
      [("message", Json.str "Error: Expected POST request.")]) ∧
    hget (handleFetch req env kinde up).response.headers "Allow" = none := by
  have h2a : (req.method != "POST") = true := by simp [bne, h2]
  have hallow : ∀ (o : Option String) (e : Env),
      hget (cors o e) "Allow" = none := fun o e => rfl
  unfold handleFetch
  refine ⟨?_, ?_, ?_⟩ <;> simp [h1, h2a, methodNotAllowed, hallow]

/-- Witness for the amended C8 at a concrete GET request. -/
theorem C8_amended_no_allow_witness :
    (reqGet.method == "OPTIONS") = false ∧
    (reqGet.method == "POST") = false ∧
    (handleFetch reqGet envDev kindeGrant upSample).response.status = 405 ∧
    hget (handleFetch reqGet envDev kindeGrant upSample).response.headers
        "Allow" = none :=
  ⟨rfl, rfl,
   (C8_amended_no_allow reqGet envDev kindeGrant upSample rfl rfl).1,
   (C8_amended_no_allow reqGet envDev kindeGrant upSample rfl rfl).2.2⟩

/-- The preflight/OPTIONS responses expose the reflected-origin CORS
value. -/
theorem hget_handleOptions_acao (req : Request) (env : Env) :
    hget (handleOptions req env).headers "Access-Control-Allow-Origin" =
      some (corsOrigin (hget req.headers "Origin") env) := by
  unfold handleOptions
  split <;> rfl

/-- `cors` always puts the reflected-origin value first. -/
theorem hget_cors_acao (o : Option String) (e : Env) :
    hget (cors o e) "Access-Control-Allow-Origin" =
      some (corsOrigin o e) := rfl

/-- The relay response's `Access-Control-Allow-Origin` value. -/
theorem hget_relay_acao (req : Request) (env : Env)
    (up : UpstreamResponse) :
    hget (relayResponse req env up).headers "Access-Control-Allow-Origin" =
      some (corsOrigin (hget req.headers "Origin") env) := by
  rw [relayResponse_headers_eq,
    hget_hset_other _ _ _ _ (by decide),
    hget_hset_other _ _ _ _ (by decide),
    hget_hset_same _ _ _ _ (by decide)]

/-- A failed validation always carries an error response whose
`Access-Control-Allow-Origin` was computed from a null origin. -/
theorem validateKindeAccess_error_acao (tok : String) (env : Env)
    (kinde : ProviderResponse)
    (h : (validateKindeAccess tok env kinde).success = false) :
    ∃ r, (validateKindeAccess tok env kinde).error = some r ∧
      hget r.headers "Access-Control-Allow-Origin" =
        some (corsOrigin none env) := by
  by_cases hk : statusOk kinde.status
  · by_cases he : hasEntitlement (kinde.body.getD (Json.obj []))
        REQUIRED_FEATURE
    · exfalso
      unfold validateKindeAccess at h
      simp [hk, he] at h
    · have herr : (validateKindeAccess tok env kinde).error = some
          { status := 403, headers := cors none env,
            body := Body.json (Json.obj
                [("success", Json.bool false),
                 ("message", Json.str
                    ("Error: Permission \x27" ++ REQUIRED_FEATURE ++
                      "\x27 not found."))]) } := by
        unfold validateKindeAccess
        simp [hk, he]
      exact ⟨_, herr, rfl⟩
  · have herr : (validateKindeAccess tok env kinde).error = some
        { status := kinde.status, headers := cors none env,
          body := Body.json (Json.obj
              [("message", Json.str
                  ("Error: Kinde Account API returned " ++
                    toString kinde.status)),
               ("details", kinde.body.getD (Json.obj []))]) } := by
      unfold validateKindeAccess
      simp [hk]
    exact ⟨_, herr, rfl⟩

/-- C9 (amended): every response carries an `Access-Control-Allow-Origin`
header equal to the configured allowed origin when set (non-empty), else
the reflected request `Origin` when present (non-empty), else `*` — with
the exception that the two responses originated inside the validation
step (the provider-error mirror and the 403) reflect a null origin, so
for them the fallback is the configured origin, else `*`, never the
request's `Origin` header. -/
theorem C9_amended_acao (req : Request) (env : Env)
    (kinde : ProviderResponse) (up : UpstreamResponse) :
    hget (handleFetch req env kinde up).response.headers
        "Access-Control-Allow-Origin" =
      some (corsOrigin
        (if deniedByValidation req env kinde then none
         else hget req.headers "Origin") env) := by
  unfold handleFetch deniedByValidation
  by_cases h1 : req.method == "OPTIONS"
  · simp [h1, hget_handleOptions_acao]
  · by_cases h2 : req.method != "POST"
    · simp [h1, h2, methodNotAllowed, hget_cors_acao]
    · cases hga : hget req.headers "Authorization" with
      | none => simp [h1, h2, hga, unauthorizedResp, hget_cors_acao]
      | some a =>
        by_cases h3 : jsStartsWith a "Bearer "
        · by_cases h4 : isBypass env (extractToken a)
          · simp [h1, h2, hga, h3, h4, hget_relay_acao]
          · by_cases h5 : (validateKindeAccess (extractToken a)
                env kinde).success
            · simp [h1, h2, hga, h3, h4, h5, hget_relay_acao]
            · obtain ⟨r, hr, hacao⟩ := validateKindeAccess_error_acao
                (extractToken a) env kinde (by simpa using h5)
              simp [h1, h2, hga, h3, h4, h5, hr, hacao]
        · simp [h1, h2, hga, h3, unauthorizedResp, hget_cors_acao]

/-- C9 counterexample: on the 403 path the request's `Origin` header is
present and no allowed origin is configured, yet the response's
`Access-Control-Allow-Origin` is `*`, not the reflected origin the claim
demands. -/
theorem C9_counterexample :
    hget reqOrigin.headers "Origin" = some "https://example.com" ∧
    envPlain.ALLOWED_ORIGIN = none ∧
    (handleFetch reqOrigin envPlain kindeNoMatch upSample).response.status
      = 403 ∧
    hget (handleFetch reqOrigin envPlain kindeNoMatch upSample).response.headers "Access-Control-Allow-Origin" = some "*" := by
  exact ⟨rfl, rfl, rfl, rfl⟩

/-- C10: the token is the second space-separated field of the
authorization header (`Bearer a b` yields `a`; the header `Bearer `
yields the empty token); an empty or unset `DEV_PRO_TOKEN` disables the
bypass for every token; and on the validation path the extracted token is
forwarded to the identity provider as the bearer credential (the Kinde
call is always the first outbound request). -/
theorem C10_token_extraction :
    extractToken "Bearer a b" = "a" ∧
    extractToken "Bearer " = "" ∧
    (∀ env : Env, env.DEV_PRO_TOKEN = some "" ∨ env.DEV_PRO_TOKEN = none →
      ∀ tok, isBypass env tok = false) ∧
    (∀ (req : Request) (env : Env) (kinde : ProviderResponse)
        (up : UpstreamResponse) (a : String),
      req.method = "POST" →
      hget req.headers "Authorization" = some a →
      jsStartsWith a "Bearer " = true →
      isBypass env (extractToken a) = false →
      (handleFetch req env kinde up).calls.head? =
        some (kindeCall env (extractToken a)) ∧
      hget (kindeCall env (extractToken a)).headers "Authorization" =
        some ("Bearer " ++ extractToken a)) := by
  refine ⟨rfl, rfl, ?_, ?_⟩
  · intro env hdev tok
    unfold isBypass
    cases hdev with
    | inl h => rw [h]; rfl
    | inr h => rw [h]
  · intro req env kinde up a hm hga hb hbp
    have h1 : (req.method == "OPTIONS") = false := by
      rw [hm]; rfl
    have h2 : (req.method != "POST") = false := by
      rw [hm]; rfl
    refine ⟨?_, rfl⟩
    unfold handleFetch
    by_cases h5 : (validateKindeAccess (extractToken a) env kinde).success
    · simp [h1, h2, hga, hb, hbp, h5]
    · simp [h1, h2, hga, hb, hbp, h5]

/-- Witness for C10: the header `Bearer ` yields the empty token, which
does not fire the bypass even when `DEV_PRO_TOKEN` is set to the empty
string, and is forwarded to the provider as `Bearer ` (empty
credential). -/
theorem C10_token_extraction_witness :
    isBypass envEmptyDev "" = false ∧
    (handleFetch reqEmptyTok envEmptyDev kindeNoMatch upSample).calls.head?
      = some (kindeCall envEmptyDev "") ∧
    hget (kindeCall envEmptyDev "").headers "Authorization" =
      some "Bearer " :=
  ⟨C10_token_extraction.2.2.1 envEmptyDev (Or.inl rfl) "",
   (C10_token_extraction.2.2.2 reqEmptyTok envEmptyDev kindeNoMatch
     upSample "Bearer " rfl rfl rfl rfl).1,
   (C10_token_extraction.2.2.2 reqEmptyTok envEmptyDev kindeNoMatch
     upSample "Bearer " rfl rfl rfl rfl).2⟩
